import Mathlib

/-!
Shallow embedding of the friend-request lifecycle of the
`social_networking_app` repository (`views.py`:
`FriendRequestViewSet.create`, `FriendRequestStatus.accept/reject/
get_friend_request/list_pending_requests`).

Users are identified by a numeric primary key; Django model-instance
equality (`to_user == request.user`) is primary-key equality.
Timestamps are seconds as naturals; `datetime.now() - timedelta(minutes=1)`
becomes truncated subtraction `now - 60`, which matches the Python
semantics because all stored timestamps are nonnegative.
-/

structure CustomUser where
  id : Nat
  email : String
  deriving DecidableEq, Repr

structure FriendRequest where
  id : Nat
  from_user : Nat
  to_user : Nat
  accepted : Bool
  created_at : Nat
  deriving DecidableEq, Repr

/-- A directed friendship edge (`Friend` record owned by `user`,
pointing at `friend`). -/
structure Friend where
  user : Nat
  friend : Nat
  deriving DecidableEq, Repr

/-- The durable stores the views read and write: the user directory,
the FriendRequest table, the Friend table, and the next primary key
handed out by the database on insert. -/
structure AppState where
  users : List CustomUser
  requests : List FriendRequest
  friends : List Friend
  nextId : Nat
  deriving DecidableEq, Repr

/-- Outcomes of `FriendRequestViewSet.create`. -/
inductive CreateResult where
  | rateLimited
  | invalidPayload
  | recipientNotFound
  | selfRequest
  | reciprocalPending
  | duplicatePending
  | created
  deriving DecidableEq, Repr

/-- HTTP status code attached to each `create` outcome in `views.py`. -/
def CreateResult.status : CreateResult → Nat
  | .rateLimited => 429
  | .invalidPayload => 400
  | .recipientNotFound => 404
  | .selfRequest => 400
  | .reciprocalPending => 400
  | .duplicatePending => 400
  | .created => 201

/-- Outcomes of `FriendRequestStatus.accept` / `.reject`.
`unauthorized` is the `PermissionDenied` raised in the view (rendered
as 403 by the framework); `internalError` is the
`AttributeError`-handler branch returning 500. -/
inductive StatusResult where
  | notFound
  | unauthorized
  | alreadyAccepted
  | internalError
  | ok
  deriving DecidableEq, Repr

/-- HTTP status code attached to each accept/reject outcome. -/
def StatusResult.status : StatusResult → Nat
  | .notFound => 404
  | .unauthorized => 403
  | .alreadyAccepted => 400
  | .internalError => 500
  | .ok => 200

/-- `FriendRequest.objects.filter(from_user=sender,
created_at__gte=now - 1 minute).count()` — the rate-limiter read. -/
def recentRequestsCount (s : AppState) (now sender : Nat) : Nat :=
  (s.requests.filter fun r =>
    r.from_user = sender && now - 60 ≤ r.created_at).length

/-- `CustomUser.objects.get(email=to_email)` (emails are unique). -/
def lookupByEmail (s : AppState) (email : String) : Option CustomUser :=
  s.users.find? fun u => u.email = email

/-- Modelled from the spec: `serializers.py` is not in `src/`.
`FriendRequestSerializer` validates the request payload and exposes the
recipient email as `validated_data["to_user"]`; an invalid payload
yields field-level errors instead. The payload is therefore embedded as
`Option String`: `some email` when validation succeeds, `none` when it
fails. -/
abbrev Payload := Option String

/-- `FriendRequestViewSet.create` (`views.py`, lines 34–108):
rate-limit check, serializer validation, recipient lookup,
self-request check, reciprocal check, duplicate check, insert. -/
def create (s : AppState) (now sender : Nat) (payload : Payload) :
    CreateResult × AppState :=
  if 3 ≤ recentRequestsCount s now sender then
    (.rateLimited, s)
  else
    match payload with
    | none => (.invalidPayload, s)
    | some to_email =>
      match lookupByEmail s to_email with
      | none => (.recipientNotFound, s)
      | some to_user =>
        if to_user.id = sender then
          (.selfRequest, s)
        else if s.requests.any fun r =>
            r.from_user = to_user.id && r.to_user = sender then
          (.reciprocalPending, s)
        else if s.requests.any fun r =>
            r.from_user = sender && r.to_user = to_user.id then
          (.duplicatePending, s)
        else
          (.created,
            { s with
              requests := s.requests ++
                [⟨s.nextId, sender, to_user.id, false, now⟩],
              nextId := s.nextId + 1 })

/-- `FriendRequestStatus.get_friend_request` (`views.py`, lines
206–214): the `FriendRequest.DoesNotExist` exception is caught inside
and `None` is returned, so the caller never sees the exception. -/
def get_friend_request (s : AppState) (pk : Nat) : Option FriendRequest :=
  s.requests.find? fun r => r.id = pk

/-- Modelled from the spec: `models.py` is not in `src/`. Acceptance
"flips-then-deletes": `FriendRequest.accept()` marks the request
accepted and materializes directed `Friend` edges so that both
`from_user`'s and `to_user`'s friend lists include each other; the view
then calls `delete()`, removing the record. This is the combined effect
of `friend_request.accept(); friend_request.delete()` on the store. -/
def acceptAndDelete (s : AppState) (fr : FriendRequest) : AppState :=
  { s with
    requests := s.requests.filter fun r => r.id ≠ fr.id,
    friends := s.friends ++
      [⟨fr.from_user, fr.to_user⟩, ⟨fr.to_user, fr.from_user⟩] }

/-- Modelled from the spec: `models.py` is not in `src/`.
`FriendRequest.reject()` deletes the record without creating any
friendship edge. -/
def rejectDelete (s : AppState) (fr : FriendRequest) : AppState :=
  { s with requests := s.requests.filter fun r => r.id ≠ fr.id }

/-- `FriendRequestStatus.accept` (`views.py`, lines 120–162).
`get_friend_request` returns `None` on a missing id (it never raises),
so the `DoesNotExist` handler is dead code and `None.to_user` raises
`AttributeError`, caught by the 500 handler. -/
def accept (s : AppState) (requester pk : Nat) :
    StatusResult × AppState :=
  match get_friend_request s pk with
  | none => (.internalError, s)
  | some fr =>
    if fr.to_user ≠ requester then (.unauthorized, s)
    else if fr.accepted then (.alreadyAccepted, s)
    else (.ok, acceptAndDelete s fr)

/-- `FriendRequestStatus.reject` (`views.py`, lines 164–204), with the
same dead `DoesNotExist` handler and 500 path as `accept`. -/
def reject (s : AppState) (requester pk : Nat) :
    StatusResult × AppState :=
  match get_friend_request s pk with
  | none => (.internalError, s)
  | some fr =>
    if fr.to_user ≠ requester then (.unauthorized, s)
    else if fr.accepted then (.alreadyAccepted, s)
    else (.ok, rejectDelete s fr)

/-- `request.from_user.email` — follow the foreign key to the sender's
email (foreign keys always resolve in the database; the empty string
stands for a dangling reference, which no reachable state produces). -/
def userEmail (s : AppState) (uid : Nat) : String :=
  match s.users.find? fun u => u.id = uid with
  | some u => u.email
  | none => ""

/-- `FriendRequestStatus.list_pending_requests` (`views.py`, lines
216–226): filter `to_user=request.user, accepted=False` and project
each record to `{"from_user_email": ...}`. -/
def list_pending_requests (s : AppState) (user : Nat) : List String :=
  (s.requests.filter fun r => r.to_user = user && r.accepted = false).map
    fun r => userEmail s r.from_user

/-- The two store invariants of the spec's data model: no
self-request, and at most one request between any unordered pair. -/
def sameUnorderedPair (r₁ r₂ : FriendRequest) : Bool :=
  (r₁.from_user = r₂.from_user && r₁.to_user = r₂.to_user) ||
  (r₁.from_user = r₂.to_user && r₁.to_user = r₂.from_user)

def StoreInv (s : AppState) : Prop :=
  (∀ r ∈ s.requests, r.from_user ≠ r.to_user) ∧
  s.requests.Pairwise fun r₁ r₂ => ¬ sameUnorderedPair r₁ r₂

instance (s : AppState) : Decidable (StoreInv s) := by
  unfold StoreInv
  exact instDecidableAnd

/-! ### Branch lemmas for `create` (shared helpers) -/

theorem create_rateLimited (s : AppState) (now sender : Nat) (p : Payload)
    (h : 3 ≤ recentRequestsCount s now sender) :
    create s now sender p = (.rateLimited, s) := by
  unfold create
  rw [if_pos h]

theorem create_invalidPayload (s : AppState) (now sender : Nat)
    (h : recentRequestsCount s now sender < 3) :
    create s now sender none = (.invalidPayload, s) := by
  unfold create
  rw [if_neg (Nat.not_le.mpr h)]

theorem create_recipientNotFound (s : AppState) (now sender : Nat) (e : String)
    (h : recentRequestsCount s now sender < 3)
    (hl : lookupByEmail s e = none) :
    create s now sender (some e) = (.recipientNotFound, s) := by
  unfold create
  rw [if_neg (Nat.not_le.mpr h)]
  simp only [hl]

theorem create_selfRequest (s : AppState) (now sender : Nat) (e : String)
    (u : CustomUser) (h : recentRequestsCount s now sender < 3)
    (hl : lookupByEmail s e = some u) (hs : u.id = sender) :
    create s now sender (some e) = (.selfRequest, s) := by
  unfold create
  rw [if_neg (Nat.not_le.mpr h)]
  simp only [hl]
  rw [if_pos hs]

theorem create_reciprocalPending (s : AppState) (now sender : Nat) (e : String)
    (u : CustomUser) (h : recentRequestsCount s now sender < 3)
    (hl : lookupByEmail s e = some u) (hs : u.id ≠ sender)
    (hr : (s.requests.any fun r =>
      r.from_user = u.id && r.to_user = sender) = true) :
    create s now sender (some e) = (.reciprocalPending, s) := by
  unfold create
  rw [if_neg (Nat.not_le.mpr h)]
  simp only [hl]
  rw [if_neg hs, if_pos hr]

theorem create_duplicatePending (s : AppState) (now sender : Nat) (e : String)
    (u : CustomUser) (h : recentRequestsCount s now sender < 3)
    (hl : lookupByEmail s e = some u) (hs : u.id ≠ sender)
    (hr : (s.requests.any fun r =>
      r.from_user = u.id && r.to_user = sender) = false)
    (hd : (s.requests.any fun r =>
      r.from_user = sender && r.to_user = u.id) = true) :
    create s now sender (some e) = (.duplicatePending, s) := by
  unfold create
  rw [if_neg (Nat.not_le.mpr h)]
  simp only [hl]
  rw [if_neg hs, if_neg (by simp [hr]), if_pos hd]

theorem create_created (s : AppState) (now sender : Nat) (e : String)
    (u : CustomUser) (h : recentRequestsCount s now sender < 3)
    (hl : lookupByEmail s e = some u) (hs : u.id ≠ sender)
    (hr : (s.requests.any fun r =>
      r.from_user = u.id && r.to_user = sender) = false)
    (hd : (s.requests.any fun r =>
      r.from_user = sender && r.to_user = u.id) = false) :
    create s now sender (some e) =
      (.created,
        { s with
          requests := s.requests ++ [⟨s.nextId, sender, u.id, false, now⟩],
          nextId := s.nextId + 1 }) := by
  unfold create
  rw [if_neg (Nat.not_le.mpr h)]
  simp only [hl]
  rw [if_neg hs, if_neg (by simp [hr]), if_neg (by simp [hd])]

theorem create_created_or_unchanged (s : AppState) (now sender : Nat)
    (p : Payload) :
    (create s now sender p).1 = .created ∨ (create s now sender p).2 = s := by
  unfold create
  repeat' split
  all_goals first
    | exact Or.inl rfl
    | exact Or.inr rfl

theorem create_snd_of_ne_created (s : AppState) (now sender : Nat)
    (p : Payload) (h : (create s now sender p).1 ≠ .created) :
    (create s now sender p).2 = s :=
  (create_created_or_unchanged s now sender p).resolve_left h

theorem create_fst_ne_rateLimited (s : AppState) (now sender : Nat)
    (p : Payload) (h : recentRequestsCount s now sender < 3) :
    (create s now sender p).1 ≠ .rateLimited := by
  unfold create
  rw [if_neg (Nat.not_le.mpr h)]
  repeat' split
  all_goals exact fun hc => nomatch hc

theorem create_fst_eq_rateLimited_iff (s : AppState) (now sender : Nat)
    (p : Payload) :
    (create s now sender p).1 = .rateLimited ↔
      3 ≤ recentRequestsCount s now sender := by
  by_cases h : 3 ≤ recentRequestsCount s now sender
  · rw [create_rateLimited s now sender p h]
    simp [h]
  · simp [create_fst_ne_rateLimited s now sender p (Nat.not_le.mp h), h]

/-! ### Branch lemmas for `accept` and `reject` (shared helpers) -/

theorem accept_ok_or_unchanged (s : AppState) (requester pk : Nat) :
    (accept s requester pk).1 = .ok ∨ (accept s requester pk).2 = s := by
  unfold accept
  repeat' split
  all_goals first
    | exact Or.inl rfl
    | exact Or.inr rfl

theorem reject_ok_or_unchanged (s : AppState) (requester pk : Nat) :
    (reject s requester pk).1 = .ok ∨ (reject s requester pk).2 = s := by
  unfold reject
  repeat' split
  all_goals first
    | exact Or.inl rfl
    | exact Or.inr rfl

/-- C1: the five `create` preconditions short-circuit in the source
order — rate limit (429), recipient lookup (404), self-request (400),
reciprocal pending (400), duplicate pending (400) — and only when all
five pass is a new FriendRequest appended with `accepted = false` under
a 201 result. -/
theorem create_precondition_order (s : AppState) (now sender : Nat) (e : String) :
    (3 ≤ recentRequestsCount s now sender →
      create s now sender (some e) = (.rateLimited, s)) ∧
    (recentRequestsCount s now sender < 3 → lookupByEmail s e = none →
      create s now sender (some e) = (.recipientNotFound, s)) ∧
    (∀ u : CustomUser, recentRequestsCount s now sender < 3 →
      lookupByEmail s e = some u → u.id = sender →
      create s now sender (some e) = (.selfRequest, s)) ∧
    (∀ u : CustomUser, recentRequestsCount s now sender < 3 →
      lookupByEmail s e = some u → u.id ≠ sender →
      (s.requests.any fun r => r.from_user = u.id && r.to_user = sender) = true →
      create s now sender (some e) = (.reciprocalPending, s)) ∧
    (∀ u : CustomUser, recentRequestsCount s now sender < 3 →
      lookupByEmail s e = some u → u.id ≠ sender →
      (s.requests.any fun r => r.from_user = u.id && r.to_user = sender) = false →
      (s.requests.any fun r => r.from_user = sender && r.to_user = u.id) = true →
      create s now sender (some e) = (.duplicatePending, s)) ∧
    (∀ u : CustomUser, recentRequestsCount s now sender < 3 →
      lookupByEmail s e = some u → u.id ≠ sender →
      (s.requests.any fun r => r.from_user = u.id && r.to_user = sender) = false →
      (s.requests.any fun r => r.from_user = sender && r.to_user = u.id) = false →
      create s now sender (some e) =
        (.created,
          { s with
            requests := s.requests ++ [⟨s.nextId, sender, u.id, false, now⟩],
            nextId := s.nextId + 1 })) ∧
    CreateResult.rateLimited.status = 429 ∧
    CreateResult.recipientNotFound.status = 404 ∧
    CreateResult.selfRequest.status = 400 ∧
    CreateResult.reciprocalPending.status = 400 ∧
    CreateResult.duplicatePending.status = 400 ∧
    CreateResult.created.status = 201 :=
  ⟨fun h => create_rateLimited s now sender _ h,
   fun h hl => create_recipientNotFound s now sender e h hl,
   fun u h hl hs => create_selfRequest s now sender e u h hl hs,
   fun u h hl hs hr => create_reciprocalPending s now sender e u h hl hs hr,
   fun u h hl hs hr hd => create_duplicatePending s now sender e u h hl hs hr hd,
   fun u h hl hs hr hd => create_created s now sender e u h hl hs hr hd,
   rfl, rfl, rfl, rfl, rfl, rfl⟩

/-- Concrete instance of C1: on a two-user directory with an empty
request table, user 1 successfully sends a request to user 2. -/
theorem create_precondition_order_witness :
    create ⟨[⟨1, "a@x"⟩, ⟨2, "b@x"⟩], [], [], 0⟩ 0 1 (some "b@x") =
      (.created, ⟨[⟨1, "a@x"⟩, ⟨2, "b@x"⟩], [⟨0, 1, 2, false, 0⟩], [], 1⟩) :=
  (create_precondition_order ⟨[⟨1, "a@x"⟩, ⟨2, "b@x"⟩], [], [], 0⟩ 0 1
    "b@x").2.2.2.2.2.1 ⟨2, "b@x"⟩ (by decide) (by decide) (by decide)
    (by decide) (by decide)

/-! ### Rate-limit sliding-window scenario states (for C2) -/

def c2s0 : AppState :=
  ⟨[⟨1, "a@x"⟩, ⟨2, "b@x"⟩, ⟨3, "c@x"⟩, ⟨4, "d@x"⟩, ⟨5, "e@x"⟩], [], [], 0⟩

def c2s1 : AppState := (create c2s0 0 1 (some "b@x")).2

def c2s2 : AppState := (create c2s1 10 1 (some "c@x")).2

def c2s3 : AppState := (create c2s2 20 1 (some "d@x")).2

/-- C2: `create` returns RateLimited (429) exactly when the sender has
at least 3 stored requests in the last 60 seconds, the rejection writes
nothing, and in the concrete 4-call scenario calls 1–3 succeed, call 4
is rejected, and a call after the window has slid past succeeds. -/
theorem rate_limit_spec :
    (∀ (s : AppState) (now sender : Nat) (p : Payload),
      ((create s now sender p).1 = .rateLimited ↔
        3 ≤ recentRequestsCount s now sender)) ∧
    (∀ (s : AppState) (now sender : Nat) (p : Payload),
      3 ≤ recentRequestsCount s now sender →
      create s now sender p = (.rateLimited, s)) ∧
    CreateResult.rateLimited.status = 429 ∧
    (create c2s0 0 1 (some "b@x")).1 = .created ∧
    (create c2s1 10 1 (some "c@x")).1 = .created ∧
    (create c2s2 20 1 (some "d@x")).1 = .created ∧
    create c2s3 30 1 (some "e@x") = (.rateLimited, c2s3) ∧
    (create c2s3 85 1 (some "e@x")).1 = .created := by
  refine ⟨create_fst_eq_rateLimited_iff, create_rateLimited, rfl,
    ?_, ?_, ?_, ?_, ?_⟩ <;> decide

/-- Concrete instance of C2: a sender with three stored requests inside
the window is rejected and the store is untouched. -/
theorem rate_limit_spec_witness :
    create ⟨[], [⟨0, 7, 8, false, 0⟩, ⟨1, 7, 9, false, 0⟩,
        ⟨2, 7, 10, false, 0⟩], [], 3⟩ 0 7 none =
      (.rateLimited, ⟨[], [⟨0, 7, 8, false, 0⟩, ⟨1, 7, 9, false, 0⟩,
        ⟨2, 7, 10, false, 0⟩], [], 3⟩) :=
  rate_limit_spec.2.1 _ 0 7 none (by decide)

/-- The FriendRequest records between an unordered pair of users, in
either direction. -/
def requestsBetween (s : AppState) (a b : Nat) : List FriendRequest :=
  s.requests.filter fun r =>
    (r.from_user = a && r.to_user = b) || (r.from_user = b && r.to_user = a)

/-- C3 fails as stated: from a state where user 1 has two recent
requests (to users 3 and 4), a create 1→2 succeeds, but the immediate
second create 1→2 yields RateLimited, not DuplicatePending, because
the rate-limit check runs first and now counts 3 recent requests. -/
theorem duplicate_after_success_counterexample :
    (create ⟨[⟨1, "a@x"⟩, ⟨2, "b@x"⟩, ⟨3, "c@x"⟩, ⟨4, "d@x"⟩],
        [⟨0, 1, 3, false, 0⟩, ⟨1, 1, 4, false, 0⟩], [], 2⟩
      0 1 (some "b@x")).1 = .created ∧
    (create (create ⟨[⟨1, "a@x"⟩, ⟨2, "b@x"⟩, ⟨3, "c@x"⟩, ⟨4, "d@x"⟩],
        [⟨0, 1, 3, false, 0⟩, ⟨1, 1, 4, false, 0⟩], [], 2⟩
      0 1 (some "b@x")).2 0 1 (some "b@x")).1 = .rateLimited ∧
    CreateResult.rateLimited ≠ .duplicatePending := by decide

/-- C3 (amended): after a successful create A→B, a second create A→B
yields DuplicatePending and a create B→A yields ReciprocalPending,
provided the second call itself is not rate-limited; in every case —
rate-limited included — no new record is written and the store contains
exactly one request between A and B. -/
theorem duplicate_reciprocal_amended (s : AppState) (now a : Nat)
    (ea eb : String) (ua ub : CustomUser)
    (hc : recentRequestsCount s now a < 3)
    (hlb : lookupByEmail s eb = some ub) (hne : ub.id ≠ a)
    (hr : (s.requests.any fun r =>
      r.from_user = ub.id && r.to_user = a) = false)
    (hd : (s.requests.any fun r =>
      r.from_user = a && r.to_user = ub.id) = false)
    (hla : lookupByEmail s ea = some ua) (hua : ua.id = a) :
    (create s now a (some eb)).1 = .created ∧
    (∀ t, recentRequestsCount (create s now a (some eb)).2 t a < 3 →
      create (create s now a (some eb)).2 t a (some eb) =
        (.duplicatePending, (create s now a (some eb)).2)) ∧
    (∀ t, recentRequestsCount (create s now a (some eb)).2 t ub.id < 3 →
      create (create s now a (some eb)).2 t ub.id (some ea) =
        (.reciprocalPending, (create s now a (some eb)).2)) ∧
    (requestsBetween (create s now a (some eb)).2 a ub.id).length = 1 ∧
    (∀ t, (create (create s now a (some eb)).2 t a (some eb)).2 =
        (create s now a (some eb)).2 ∧
      (create (create s now a (some eb)).2 t ub.id (some ea)).2 =
        (create s now a (some eb)).2) := by
  have h1 := create_created s now a eb ub hc hlb hne hr hd
  rw [h1]
  set n : FriendRequest := ⟨s.nextId, a, ub.id, false, now⟩ with hn
  set S : AppState :=
    { s with requests := s.requests ++ [n], nextId := s.nextId + 1 } with hS
  have hSreq : S.requests = s.requests ++ [n] := rfl
  have hlbS : lookupByEmail S eb = some ub := hlb
  have hlaS : lookupByEmail S ea = some ua := hla
  have hrS : (S.requests.any fun r =>
      r.from_user = ub.id && r.to_user = a) = false := by
    rw [hSreq, List.any_append, hr]
    simp [hn, hne]
  have hdS : (S.requests.any fun r =>
      r.from_user = a && r.to_user = ub.id) = true := by
    rw [hSreq, List.any_append]
    simp [hn]
  have hrecS : (S.requests.any fun r =>
      r.from_user = ua.id && r.to_user = ub.id) = true := by
    rw [hSreq, List.any_append]
    simp [hn, hua]
  have hdup : ∀ t, recentRequestsCount S t a < 3 →
      create S t a (some eb) = (.duplicatePending, S) := fun t ht =>
    create_duplicatePending S t a eb ub ht hlbS hne hrS hdS
  have hrec : ∀ t, recentRequestsCount S t ub.id < 3 →
      create S t ub.id (some ea) = (.reciprocalPending, S) := fun t ht =>
    create_reciprocalPending S t ub.id ea ua ht hlaS
      (by rw [hua]; exact Ne.symm hne) hrecS
  refine ⟨rfl, hdup, hrec, ?_, ?_⟩
  · have hnil : (s.requests.filter fun r =>
        (r.from_user = a && r.to_user = ub.id) ||
        (r.from_user = ub.id && r.to_user = a)) = [] := by
      rw [List.filter_eq_nil_iff]
      intro r hmem
      have h₁ := List.any_eq_false.mp hd r hmem
      have h₂ := List.any_eq_false.mp hr r hmem
      simp only [Bool.and_eq_true, decide_eq_true_eq, not_and] at h₁ h₂
      simp only [Bool.or_eq_true, Bool.and_eq_true, decide_eq_true_eq, not_or, not_and]
      exact ⟨h₁, h₂⟩
    unfold requestsBetween
    rw [hSreq, List.filter_append, hnil]
    simp [hn]
  · intro t
    constructor
    · by_cases ht : 3 ≤ recentRequestsCount S t a
      · rw [create_rateLimited S t a (some eb) ht]
      · rw [hdup t (Nat.not_le.mp ht)]
    · by_cases ht : 3 ≤ recentRequestsCount S t ub.id
      · rw [create_rateLimited S t ub.id (some ea) ht]
      · rw [hrec t (Nat.not_le.mp ht)]

/-- Concrete instance of the amended C3: on a fresh two-user store,
after 1→2 succeeds, a second 1→2 yields DuplicatePending. -/
theorem duplicate_reciprocal_amended_witness :
    (create (create ⟨[⟨1, "a@x"⟩, ⟨2, "b@x"⟩], [], [], 0⟩
        0 1 (some "b@x")).2 0 1 (some "b@x")).1 = .duplicatePending ∧
    (create (create ⟨[⟨1, "a@x"⟩, ⟨2, "b@x"⟩], [], [], 0⟩
        0 1 (some "b@x")).2 0 2 (some "a@x")).1 = .reciprocalPending := by
  have h := duplicate_reciprocal_amended ⟨[⟨1, "a@x"⟩, ⟨2, "b@x"⟩], [], [], 0⟩
    0 1 "a@x" "b@x" ⟨1, "a@x"⟩ ⟨2, "b@x"⟩ (by decide) (by decide) (by decide)
    (by decide) (by decide) (by decide) (by decide)
  exact ⟨by rw [h.2.1 0 (by decide)], by rw [h.2.2.1 0 (by decide)]⟩

/-- C4: accepting an existing, recipient-owned, not-yet-accepted
request returns 200, deletes the record, and materializes both
friendship edges; on every non-success outcome neither effect happens
(the state is returned unchanged). -/
theorem accept_success_spec (s : AppState) (requester pk : Nat)
    (fr : FriendRequest) (h1 : get_friend_request s pk = some fr)
    (h2 : fr.to_user = requester) (h3 : fr.accepted = false) :
    accept s requester pk = (.ok, acceptAndDelete s fr) ∧
    (∀ r ∈ (accept s requester pk).2.requests, r.id ≠ pk) ∧
    Friend.mk fr.from_user fr.to_user ∈ (accept s requester pk).2.friends ∧
    Friend.mk fr.to_user fr.from_user ∈ (accept s requester pk).2.friends ∧
    (∀ (s₀ : AppState) (req qk : Nat), (accept s₀ req qk).1 ≠ .ok →
      (accept s₀ req qk).2 = s₀) ∧
    StatusResult.ok.status = 200 := by
  have hfr : fr.id = pk := by simpa using List.find?_some h1
  have hacc : accept s requester pk = (.ok, acceptAndDelete s fr) := by
    unfold accept
    rw [h1]
    exact (if_neg (not_not_intro h2)).trans (if_neg (by simp [h3]))
  refine ⟨hacc, ?_, ?_, ?_, ?_, rfl⟩
  · rw [hacc]
    intro r hmem
    have h := (List.mem_filter.mp hmem).2
    simp only [decide_eq_true_eq] at h
    rw [← hfr]; exact h
  · rw [hacc]; unfold acceptAndDelete; simp
  · rw [hacc]; unfold acceptAndDelete; simp
  · intro s₀ req qk h
    exact (accept_ok_or_unchanged s₀ req qk).resolve_left h

/-- Concrete instance of C4: user 2 accepts the pending request from
user 1; the record is removed and both edges exist. -/
theorem accept_success_spec_witness :
    accept ⟨[⟨1, "a@x"⟩, ⟨2, "b@x"⟩], [⟨0, 1, 2, false, 0⟩], [], 1⟩ 2 0 =
      (.ok, acceptAndDelete ⟨[⟨1, "a@x"⟩, ⟨2, "b@x"⟩],
        [⟨0, 1, 2, false, 0⟩], [], 1⟩ ⟨0, 1, 2, false, 0⟩) :=
  (accept_success_spec ⟨[⟨1, "a@x"⟩, ⟨2, "b@x"⟩], [⟨0, 1, 2, false, 0⟩],
    [], 1⟩ 2 0 ⟨0, 1, 2, false, 0⟩ (by decide) (by decide) (by decide)).1

/-- C5: contrary to the claim, an id that resolves to no FriendRequest
makes both accept and reject return 500 (the `DoesNotExist` handler is
dead because `get_friend_request` swallows the exception and returns
`None`, so `None.to_user` raises `AttributeError`); this includes the
repeat accept of an already accepted-and-deleted request. -/
theorem missing_request_yields_500 :
    (accept ⟨[⟨1, "a@x"⟩, ⟨2, "b@x"⟩], [], [], 1⟩ 2 0).1 = .internalError ∧
    (reject ⟨[⟨1, "a@x"⟩, ⟨2, "b@x"⟩], [], [], 1⟩ 2 0).1 = .internalError ∧
    (accept (accept ⟨[⟨1, "a@x"⟩, ⟨2, "b@x"⟩], [⟨0, 1, 2, false, 0⟩],
      [], 1⟩ 2 0).2 2 0).1 = .internalError ∧
    (reject (accept ⟨[⟨1, "a@x"⟩, ⟨2, "b@x"⟩], [⟨0, 1, 2, false, 0⟩],
      [], 1⟩ 2 0).2 2 0).1 = .internalError ∧
    StatusResult.internalError.status = 500 ∧
    StatusResult.notFound.status = 404 ∧
    StatusResult.internalError ≠ .notFound := by decide

/-- C6: accept and reject by any requester other than the recipient
return Unauthorized (403) and leave the whole state — requests and
friendships — unchanged. -/
theorem non_recipient_unauthorized (s : AppState) (requester pk : Nat)
    (fr : FriendRequest) (h1 : get_friend_request s pk = some fr)
    (h2 : fr.to_user ≠ requester) :
    accept s requester pk = (.unauthorized, s) ∧
    reject s requester pk = (.unauthorized, s) ∧
    StatusResult.unauthorized.status = 403 := by
  refine ⟨?_, ?_, rfl⟩
  · unfold accept
    rw [h1]
    exact if_pos h2
  · unfold reject
    rw [h1]
    exact if_pos h2

/-- Concrete instance of C6: the sender (user 1) tries to accept the
request they sent to user 2 and is rejected with 403. -/
theorem non_recipient_unauthorized_witness :
    accept ⟨[⟨1, "a@x"⟩, ⟨2, "b@x"⟩], [⟨0, 1, 2, false, 0⟩], [], 1⟩ 1 0 =
      (.unauthorized, ⟨[⟨1, "a@x"⟩, ⟨2, "b@x"⟩],
        [⟨0, 1, 2, false, 0⟩], [], 1⟩) :=
  (non_recipient_unauthorized ⟨[⟨1, "a@x"⟩, ⟨2, "b@x"⟩],
    [⟨0, 1, 2, false, 0⟩], [], 1⟩ 1 0 ⟨0, 1, 2, false, 0⟩
    (by decide) (by decide)).1

/-- C7: rejecting an existing, recipient-owned, not-yet-accepted
request returns 200, deletes the record, and creates no friendship
edge (the Friend table is exactly what it was). -/
theorem reject_success_spec (s : AppState) (requester pk : Nat)
    (fr : FriendRequest) (h1 : get_friend_request s pk = some fr)
    (h2 : fr.to_user = requester) (h3 : fr.accepted = false) :
    reject s requester pk = (.ok, rejectDelete s fr) ∧
    (∀ r ∈ (reject s requester pk).2.requests, r.id ≠ pk) ∧
    (reject s requester pk).2.friends = s.friends ∧
    StatusResult.ok.status = 200 := by
  have hfr : fr.id = pk := by simpa using List.find?_some h1
  have hrej : reject s requester pk = (.ok, rejectDelete s fr) := by
    unfold reject
    rw [h1]
    exact (if_neg (not_not_intro h2)).trans (if_neg (by simp [h3]))
  refine ⟨hrej, ?_, ?_, rfl⟩
  · rw [hrej]
    intro r hmem
    have h := (List.mem_filter.mp hmem).2
    simp only [decide_eq_true_eq] at h
    rw [← hfr]; exact h
  · rw [hrej]; rfl

/-- Concrete instance of C7: user 2 rejects the pending request from
user 1; the record is removed and no friendship appears. -/
theorem reject_success_spec_witness :
    reject ⟨[⟨1, "a@x"⟩, ⟨2, "b@x"⟩], [⟨0, 1, 2, false, 0⟩], [], 1⟩ 2 0 =
      (.ok, rejectDelete ⟨[⟨1, "a@x"⟩, ⟨2, "b@x"⟩],
        [⟨0, 1, 2, false, 0⟩], [], 1⟩ ⟨0, 1, 2, false, 0⟩) :=
  (reject_success_spec ⟨[⟨1, "a@x"⟩, ⟨2, "b@x"⟩], [⟨0, 1, 2, false, 0⟩],
    [], 1⟩ 2 0 ⟨0, 1, 2, false, 0⟩ (by decide) (by decide) (by decide)).1

theorem userEmail_insert (s : AppState) (now sender recipient x : Nat) :
    userEmail
      { s with
        requests := s.requests ++ [⟨s.nextId, sender, recipient, false, now⟩],
        nextId := s.nextId + 1 } x = userEmail s x := rfl

/-- C8: `list_pending_requests` returns exactly the requests addressed
to the user that are not accepted, projected to the sender's email;
moreover each successful create targeting a user appends exactly that
one entry to their pending list and leaves every other user's pending
list unchanged (so N successful creates targeting U yield exactly N
entries). -/
theorem list_pending_spec :
    (∀ (s : AppState) (u : Nat),
      list_pending_requests s u =
        (s.requests.filter fun r => r.to_user = u && r.accepted = false).map
          fun r => userEmail s r.from_user) ∧
    (∀ (s : AppState) (now a : Nat) (e : String) (u : CustomUser),
      recentRequestsCount s now a < 3 → lookupByEmail s e = some u →
      u.id ≠ a →
      (s.requests.any fun r => r.from_user = u.id && r.to_user = a) = false →
      (s.requests.any fun r => r.from_user = a && r.to_user = u.id) = false →
      list_pending_requests (create s now a (some e)).2 u.id =
        list_pending_requests s u.id ++ [userEmail s a] ∧
      ∀ v, v ≠ u.id →
        list_pending_requests (create s now a (some e)).2 v =
          list_pending_requests s v) := by
  refine ⟨fun s u => rfl, ?_⟩
  intro s now a e u hc hl hs hr hd
  rw [create_created s now a e u hc hl hs hr hd]
  constructor
  · unfold list_pending_requests
    simp [List.filter_append, userEmail_insert]
  · intro v hv
    unfold list_pending_requests
    simp [List.filter_append, userEmail_insert, Ne.symm hv]

/-- Concrete instance of C8: after user 1 successfully sends to user 2,
the pending list of user 2 gains exactly the entry with user 1's email. -/
theorem list_pending_spec_witness :
    list_pending_requests (create ⟨[⟨1, "a@x"⟩, ⟨2, "b@x"⟩], [], [], 0⟩
        0 1 (some "b@x")).2 2 =
      list_pending_requests ⟨[⟨1, "a@x"⟩, ⟨2, "b@x"⟩], [], [], 0⟩ 2 ++
        [userEmail ⟨[⟨1, "a@x"⟩, ⟨2, "b@x"⟩], [], [], 0⟩ 1] :=
  (list_pending_spec.2 ⟨[⟨1, "a@x"⟩, ⟨2, "b@x"⟩], [], [], 0⟩ 0 1 "b@x"
    ⟨2, "b@x"⟩ (by decide) (by decide) (by decide) (by decide)
    (by decide)).1

theorem storeInv_of_sublist (s s₀ : AppState) (h : StoreInv s)
    (hsub : s₀.requests.Sublist s.requests) : StoreInv s₀ :=
  ⟨fun r hr => h.1 r (hsub.subset hr), h.2.sublist hsub⟩

/-- C9: starting from any state whose request table has no
self-request and at most one request per unordered pair, each of
create, accept and reject leaves both invariants intact. -/
theorem ops_preserve_invariants (s : AppState) (now sender requester pk : Nat)
    (p : Payload) (h : StoreInv s) :
    StoreInv (create s now sender p).2 ∧
    StoreInv (accept s requester pk).2 ∧
    StoreInv (reject s requester pk).2 := by
  refine ⟨?_, ?_, ?_⟩
  · unfold create
    repeat' split
    all_goals try exact h
    rename_i u heq hself hrec hdup
    refine ⟨?_, ?_⟩
    · intro r hr
      rcases List.mem_append.mp hr with hmem | hmem
      · exact h.1 r hmem
      · simp only [List.mem_singleton] at hmem
        subst hmem
        exact fun hcontra => hself hcontra.symm
    · rw [List.pairwise_append]
      refine ⟨h.2, by simp, ?_⟩
      intro r₁ hr₁ r₂ hr₂
      simp only [List.mem_singleton] at hr₂
      subst hr₂
      intro hsame
      unfold sameUnorderedPair at hsame
      simp only [Bool.or_eq_true, Bool.and_eq_true, decide_eq_true_eq] at hsame
      rcases hsame with ⟨hfrom, hto⟩ | ⟨hfrom, hto⟩
      · exact hdup (List.any_eq_true.mpr ⟨r₁, hr₁, by simp [hfrom, hto]⟩)
      · exact hrec (List.any_eq_true.mpr ⟨r₁, hr₁, by simp [hfrom, hto]⟩)
  · unfold accept
    repeat' split
    all_goals try exact h
    exact storeInv_of_sublist s _ h (List.filter_sublist _)
  · unfold reject
    repeat' split
    all_goals try exact h
    exact storeInv_of_sublist s _ h (List.filter_sublist _)

/-- Concrete instance of C9: from a one-request store satisfying both
invariants, all three operations preserve them. -/
theorem ops_preserve_invariants_witness :
    StoreInv (create ⟨[⟨1, "a@x"⟩, ⟨2, "b@x"⟩, ⟨3, "c@x"⟩],
      [⟨0, 1, 2, false, 0⟩], [], 1⟩ 0 1 (some "c@x")).2 ∧
    StoreInv (accept ⟨[⟨1, "a@x"⟩, ⟨2, "b@x"⟩, ⟨3, "c@x"⟩],
      [⟨0, 1, 2, false, 0⟩], [], 1⟩ 2 0).2 ∧
    StoreInv (reject ⟨[⟨1, "a@x"⟩, ⟨2, "b@x"⟩, ⟨3, "c@x"⟩],
      [⟨0, 1, 2, false, 0⟩], [], 1⟩ 2 0).2 :=
  ops_preserve_invariants ⟨[⟨1, "a@x"⟩, ⟨2, "b@x"⟩, ⟨3, "c@x"⟩],
    [⟨0, 1, 2, false, 0⟩], [], 1⟩ 0 1 2 0 (some "c@x") (by decide)

/-- C10: `create` writes nothing unless its outcome is the 201
success; in particular a payload failing serializer validation produces
the 400 validation-error response with both stores untouched. -/
theorem create_mutates_only_on_201 :
    (∀ (s : AppState) (now sender : Nat) (p : Payload),
      (create s now sender p).1 ≠ .created → (create s now sender p).2 = s) ∧
    (∀ (s : AppState) (now sender : Nat),
      recentRequestsCount s now sender < 3 →
      create s now sender none = (.invalidPayload, s)) ∧
    CreateResult.invalidPayload.status = 400 ∧
    CreateResult.created.status = 201 :=
  ⟨fun s now sender p h => create_snd_of_ne_created s now sender p h,
   fun s now sender h => create_invalidPayload s now sender h, rfl, rfl⟩

/-- Concrete instance of C10: an invalid payload leaves the store
untouched and yields the validation-error outcome. -/
theorem create_mutates_only_on_201_witness :
    create ⟨[⟨1, "a@x"⟩], [], [], 0⟩ 0 1 none =
      (.invalidPayload, ⟨[⟨1, "a@x"⟩], [], [], 0⟩) :=
  create_mutates_only_on_201.2.1 ⟨[⟨1, "a@x"⟩], [], [], 0⟩ 0 1 (by decide)
